import Mathlib

/-!
# Verification of the ride-analysis engine (garmin-data-agent)

Shallow embedding of the core analysis code of the repository:
`src/agents/data_analyzer.py` (class `RideDataAgent`) and the metric
extraction / query boundary of `app.py`.

Modelling conventions:
* pandas `DataFrame` → `DataFrame`: an ordered association list of named
  columns, each column an ordered list of cells; a cell is `Option ℚ`
  with `none` playing the role of a missing value / `NaN`.
* Python floats → `ℚ` (exact rationals); the claims under study are
  structural (branch selection, counting, slicing, unit-conversion
  formulas), not bit-level floating-point claims.
* Python `dict` session data → `Summary`, an association list
  `String × ℚ` with `dict.get`-style lookup.
* Python exceptions → an explicit `exn` constructor in result types
  (fallible code returns sum types; an uncaught exception propagates).
* The formatted response strings of `process_natural_query` are f-string
  templates; the embedding records which template was chosen and the
  numeric slots filled into it (`Response`), abstracting only the final
  decimal-rendering of numbers into text.
* The engine's `self.ride_data` mutable state is passed explicitly: the
  operations that can assign to it return the updated table.
-/

/-- A column of a pandas DataFrame: one cell per row; `none` is NaN/missing. -/
abbrev Col := List (Option ℚ)

/-- The sample table: ordered named columns (`pd.DataFrame`). -/
structure DataFrame where
  cols : List (String × Col)
deriving DecidableEq

/-- First-match association-list lookup of a column by name. -/
def lookupCol : List (String × Col) → String → Option Col
  | [], _ => none
  | (n, c) :: rest, name => if n = name then some c else lookupCol rest name

/-- `df[name]` as a total lookup (`none` when the column is absent). -/
def DataFrame.getCol (df : DataFrame) (name : String) : Option Col :=
  lookupCol df.cols name

/-- `name in df.columns`. -/
def DataFrame.hasCol (df : DataFrame) (name : String) : Bool :=
  (df.getCol name).isSome

/-- `len(df)`: the number of rows (length of the first column; 0 if no columns). -/
def DataFrame.nRows (df : DataFrame) : ℕ :=
  match df.cols with
  | [] => 0
  | c :: _ => c.2.length

/-- Well-formedness: all columns have the common row count. -/
def DataFrame.WF (df : DataFrame) : Prop :=
  ∀ p ∈ df.cols, p.2.length = df.nRows

/-- `df[name] = vals`: pandas column assignment — replaces an existing
column in place, else appends a new column at the end. -/
def DataFrame.setCol (df : DataFrame) (name : String) (vals : Col) : DataFrame :=
  if df.hasCol name then
    ⟨df.cols.map (fun p => if p.1 = name then (name, vals) else p)⟩
  else
    ⟨df.cols ++ [(name, vals)]⟩

/-- `df[:k]` positional slicing (applied to every column). -/
def DataFrame.takeRows (df : DataFrame) (k : ℕ) : DataFrame :=
  ⟨df.cols.map (fun p => (p.1, p.2.take k))⟩

/-- `df[k:]` positional slicing (applied to every column). -/
def DataFrame.dropRows (df : DataFrame) (k : ℕ) : DataFrame :=
  ⟨df.cols.map (fun p => (p.1, p.2.drop k))⟩

/-- Keep the cells of a column selected by a row mask (`df[bool_series]`). -/
def maskFilter (mask : List Bool) (c : Col) : Col :=
  (List.zip mask c).filterMap (fun bv => if bv.1 then some bv.2 else none)

/-- Boolean-mask row selection `df[mask]`, applied to every column. -/
def DataFrame.filterRows (df : DataFrame) (mask : List Bool) : DataFrame :=
  ⟨df.cols.map (fun p => (p.1, maskFilter mask p.2))⟩

/-- `series.mean()`: mean of the non-missing cells; NaN (`none`) when there
are none (pandas skips NaN). -/
def omean (c : Col) : Option ℚ :=
  let vals := c.filterMap id
  if vals.length = 0 then none else some (vals.sum / (vals.length : ℚ))

/-- `series.max()`: max of the non-missing cells; NaN (`none`) when there
are none. -/
def omax (c : Col) : Option ℚ :=
  let vals := c.filterMap id
  match vals with
  | [] => none
  | v :: vs => some (vs.foldl max v)

/-- `x > c` for a possibly-NaN `x`: any comparison with NaN is `False`. -/
def ogt (x : Option ℚ) (c : ℚ) : Bool :=
  match x with
  | some v => decide (c < v)
  | none => false

/-- NaN-propagating scaling of a possibly-NaN value. -/
def oscale (x : Option ℚ) (c : ℚ) : Option ℚ := x.map (· * c)

/-- NaN-propagating subtraction of cells. -/
def subO (b a : Option ℚ) : Option ℚ :=
  match b, a with
  | some b', some a' => some (b' - a')
  | _, _ => none

/-- `series.diff()`: first cell NaN, then pairwise difference; a difference
touching a missing cell is NaN. -/
def diffO (c : Col) : Col :=
  match c with
  | [] => []
  | x :: xs => none :: List.zipWith subO xs (x :: xs)

/-- The difference `c[i] - c[i-1]` of the claim's Δ notation (NaN when
either cell is missing). -/
def deltaAt (c : Col) (i : ℕ) : Option ℚ :=
  subO (c.getD i none) (c.getD (i - 1) none)

/-- The session summary record: a `dict` of numeric session aggregates. -/
abbrev Summary := List (String × ℚ)

/-- `session_data.get(key, default)`. -/
def Summary.get (sd : Summary) (key : String) (default : ℚ) : ℚ :=
  match sd with
  | [] => default
  | (k, v) :: rest => if k = key then v else Summary.get rest key default

/-- `key in session_data`. -/
def Summary.hasKey (sd : Summary) (key : String) : Bool :=
  match sd with
  | [] => false
  | (k, _) :: rest => k = key || Summary.hasKey rest key

-- Unit conversion constants, as written in the source.
def MPS_TO_MPH : ℚ := 2.23694
def METERS_TO_MILES : ℚ := 0.000621371
def METERS_TO_FEET : ℚ := 3.28084

/-!
## Metrics Extractor (`app.py`, `extract_ride_metrics`)
-/

/-- The twelve headline metric fields returned by `extract_ride_metrics`. -/
structure MetricsRecord where
  total_distance : ℚ
  total_time : ℚ
  avg_speed : ℚ
  max_speed : ℚ
  avg_heart_rate : ℚ
  max_heart_rate : ℚ
  avg_power : ℚ
  max_power : ℚ
  total_ascent : ℚ
  total_descent : ℚ
  normalized_power : ℚ
  training_stress_score : ℚ
deriving DecidableEq

/-- `app.py::extract_ride_metrics(df, session_data)`. The Python function
returns the empty dict `{}` when `df is None or df.empty` (modelled as
`none`), otherwise the twelve-field record. -/
def extract_ride_metrics (df : DataFrame) (session_data : Summary) :
    Option MetricsRecord :=
  if df.nRows = 0 then none
  else some {
    total_distance := session_data.get "total_distance" 0 * METERS_TO_MILES
    total_time :=
      if session_data.hasKey "total_timer_time" then
        session_data.get "total_timer_time" 0 / 3600
      else 0
    avg_speed :=
      session_data.get "enhanced_avg_speed" (session_data.get "avg_speed" 0) * MPS_TO_MPH
    max_speed :=
      session_data.get "enhanced_max_speed" (session_data.get "max_speed" 0) * MPS_TO_MPH
    avg_heart_rate := session_data.get "avg_heart_rate" 0
    max_heart_rate := session_data.get "max_heart_rate" 0
    avg_power := session_data.get "avg_power" 0
    max_power :=
      session_data.get "max_power" (session_data.get "normalized_power" 0)
    total_ascent := session_data.get "total_ascent" 0 * METERS_TO_FEET
    total_descent := session_data.get "total_descent" 0 * METERS_TO_FEET
    normalized_power := session_data.get "normalized_power" 0
    training_stress_score := session_data.get "training_stress_score" 0 }

/-!
## Gradient & climb analysis (`data_analyzer.py`, `calculate_gradient_analysis`)
-/

/-- The per-row gradient derived from the altitude and distance columns:
`np.where(distance_diff != 0, (altitude_diff / distance_diff) * 100, 0)`
followed by `np.where(np.isfinite(gradient), gradient, 0)`. A NaN in either
diff (first row, or a missing cell) makes the ratio non-finite, hence `0`;
a zero distance-diff stands for the second `np.where` branch. -/
def computeGradient (alt dist : Col) : List ℚ :=
  List.zipWith
    (fun ad dd =>
      match ad, dd with
      | some a, some d => if d = 0 then 0 else a / d * 100
      | _, _ => 0)
    (diffO alt) (diffO dist)

/-- Result of `calculate_gradient_analysis`: the `{"error": ...}` dict, the
`{"message": ...}` dict, the climb-metrics dict, or an escaped Python
exception (`exn` carries `str(e)`). -/
structure ClimbMetrics where
  avg_speed_on_climbs : Option ℚ
  avg_heart_rate_on_climbs : Option ℚ
  avg_power_on_climbs : Option ℚ
  steepest_gradient : Option ℚ
  total_climb_distance : ℚ
  climb_segments : ℕ
deriving DecidableEq

inductive GradOutcome where
  | err (s : String)
  | msg (s : String)
  | ok (m : ClimbMetrics)
  | exn (s : String)
deriving DecidableEq

/-- Lines 27-34 of `calculate_gradient_analysis`: pick `enhanced_altitude`,
else `altitude`, else no altitude data. -/
def chooseAltCol (df : DataFrame) : Option String :=
  if df.hasCol "enhanced_altitude" then some "enhanced_altitude"
  else if df.hasCol "altitude" then some "altitude"
  else none

/-- Lines 36-43 of `calculate_gradient_analysis`: when a `distance` column
exists, (re)compute the gradient from the current columns and assign it
back onto the table; otherwise leave the table unchanged. -/
def writeGradient (df : DataFrame) (altName : String) : DataFrame :=
  match df.getCol "distance", df.getCol altName with
  | some dist, some alt =>
      df.setCol "gradient" ((computeGradient alt dist).map some)
  | _, _ => df

/-- Lines 45-66 of `calculate_gradient_analysis`: select the steep-climb
rows (`gradient > 2.5`) and reduce them; reading `self.ride_data['gradient']`
raises `KeyError` (the `exn` outcome) when no gradient column exists. -/
def climbStats (df1 : DataFrame) : DataFrame × GradOutcome :=
  match df1.getCol "gradient" with
  | none => (df1, .exn "'gradient'")
  | some g =>
    let mask := g.map (fun v => ogt v 2.5)
    let steep := df1.filterRows mask
    if steep.nRows = 0 then
      (df1, .msg "No climbs steeper than 2.5% found in this ride")
    else
      let speedCol :=
        if steep.hasCol "enhanced_speed" then "enhanced_speed" else "speed"
      (df1, .ok {
        avg_speed_on_climbs :=
          match steep.getCol speedCol with
          | some c => oscale (omean c) MPS_TO_MPH
          | none => some 0
        avg_heart_rate_on_climbs :=
          match steep.getCol "heart_rate" with
          | some c => omean c
          | none => some 0
        avg_power_on_climbs :=
          match steep.getCol "power" with
          | some c => omean c
          | none => some 0
        -- `steep_climbs['gradient'].max()` — the gradient column is
        -- necessarily present here (it was just read from `df1`), so the
        -- unconditional access is the filtered column's max.
        steepest_gradient := omax (maskFilter mask g)
        total_climb_distance := (steep.nRows : ℚ) * 0.01 * 0.621371
        climb_segments := steep.nRows })

/-- `RideDataAgent.calculate_gradient_analysis`, with the `self.ride_data`
mutation made explicit (the returned table): choose the altitude column
(error when absent), write the gradient when possible, then reduce the
steep rows. -/
def calculate_gradient_analysis (df : DataFrame) : DataFrame × GradOutcome :=
  match chooseAltCol df with
  | none => (df, .err "No altitude data available")
  | some altName => climbStats (writeGradient df altName)

/-!
## Power zone analysis (`data_analyzer.py`, `analyze_power_zones`)
-/

/-- `pandas.Series.quantile(q)` with the default linear interpolation:
on the sorted values `s` of length `n`, with `h = q*(n-1)`, the result is
`s[⌊h⌋] + (h - ⌊h⌋) * (s[⌊h⌋+1] - s[⌊h⌋])`. Embedding of the library
function called as `power_data.quantile(0.9)`. -/
def quantileLin (l : List ℚ) (q : ℚ) : ℚ :=
  let s := List.insertionSort (· ≤ ·) l
  if s.length = 0 then 0
  else
    let h : ℚ := q * ((s.length : ℚ) - 1)
    let i : ℕ := (Int.floor h).toNat
    let lo := s.getD i 0
    let hi := s.getD (i + 1) lo
    lo + (h - (Int.floor h : ℚ)) * (hi - lo)

/-- Zone membership test `(power_data >= min_power) & (power_data < max_power)`;
`none` as the upper bound is `float('inf')` (always satisfied). -/
def inRange (lo : ℚ) (hi : Option ℚ) (x : ℚ) : Bool :=
  decide (lo ≤ x) &&
    (match hi with
     | some h => decide (x < h)
     | none => true)

/-- The six power zones of `analyze_power_zones` (the `zones` dict), as
`(name, min_power, max_power)` with `none` for `float('inf')`. -/
def zonesList (ftp : ℚ) : List (String × ℚ × Option ℚ) :=
  [("Zone 1 (Recovery)", 0, some (0.55 * ftp)),
   ("Zone 2 (Endurance)", 0.55 * ftp, some (0.75 * ftp)),
   ("Zone 3 (Tempo)", 0.75 * ftp, some (0.9 * ftp)),
   ("Zone 4 (Threshold)", 0.9 * ftp, some (1.05 * ftp)),
   ("Zone 5 (VO2 Max)", 1.05 * ftp, some (1.2 * ftp)),
   ("Zone 6 (Neuromuscular)", 1.2 * ftp, none)]

/-- The per-zone loop of `analyze_power_zones`: for each zone, the pair
`(time_percentage, avg_power)` computed over the non-missing power samples
`pd` of the whole ride. -/
def zoneStatsAt (ftp : ℚ) (pd : List ℚ) : List (String × ℚ × ℚ) :=
  (zonesList ftp).map (fun z =>
    let zd := pd.filter (fun x => inRange z.2.1 z.2.2 x)
    (z.1, ((zd.length : ℚ) / (pd.length : ℚ)) * 100,
      if 0 < zd.length then zd.sum / (zd.length : ℚ) else 0))

inductive ZonesOutcome where
  | err (s : String)
  | ok (zones : List (String × ℚ × ℚ))
deriving DecidableEq

/-- `RideDataAgent.analyze_power_zones` (loaded state, so `ride_data` is
present; the `is None` guard is the unloaded state, outside this model). -/
def analyze_power_zones (df : DataFrame) : ZonesOutcome :=
  match df.getCol "power" with
  | none => .err "No power data available"
  | some pc =>
    let pd := pc.filterMap id   -- `.dropna()`
    if pd.length = 0 then .err "No valid power data"
    else .ok (zoneStatsAt (quantileLin pd 0.9) pd)

/-- Sum of the reported `time_percentage` values of a zone report (0 for the
error outcomes). -/
def ZonesOutcome.pctSum : ZonesOutcome → ℚ
  | .err _ => 0
  | .ok zs => (zs.map (fun z => z.2.1)).sum

/-!
## Segment analysis (`data_analyzer.py`, `analyze_ride_segments`)
-/

structure SegmentMetrics where
  avg_speed : Option ℚ
  max_speed : Option ℚ
  avg_heart_rate : Option ℚ
  max_heart_rate : Option ℚ
  avg_power : Option ℚ
  max_power : Option ℚ
  data_points : ℕ
deriving DecidableEq

inductive SegOutcome where
  | err (s : String)
  | ok (m : SegmentMetrics)
deriving DecidableEq

/-- The positional slicing of `analyze_ride_segments` (lines choosing
`segment_data`); `none` is the unknown-segment-type case. -/
def segment_of (df : DataFrame) (segment_type : String) : Option DataFrame :=
  let total_points := df.nRows
  if segment_type = "first_half" then some (df.takeRows (total_points / 2))
  else if segment_type = "second_half" then some (df.dropRows (total_points / 2))
  else if segment_type = "first_third" then some (df.takeRows (total_points / 3))
  else if segment_type = "last_third" then some (df.dropRows (2 * total_points / 3))
  else none

/-- The metric reduction of `analyze_ride_segments` over the selected
segment (the `metrics` dict). -/
def reduceSegment (seg : DataFrame) : SegmentMetrics :=
  let speedCol := if seg.hasCol "enhanced_speed" then "enhanced_speed" else "speed"
  { avg_speed :=
      match seg.getCol speedCol with
      | some c => oscale (omean c) MPS_TO_MPH
      | none => some 0
    max_speed :=
      match seg.getCol speedCol with
      | some c => oscale (omax c) MPS_TO_MPH
      | none => some 0
    avg_heart_rate :=
      match seg.getCol "heart_rate" with
      | some c => omean c
      | none => some 0
    max_heart_rate :=
      match seg.getCol "heart_rate" with
      | some c => omax c
      | none => some 0
    avg_power :=
      match seg.getCol "power" with
      | some c => omean c
      | none => some 0
    max_power :=
      match seg.getCol "power" with
      | some c => omax c
      | none => some 0
    data_points := seg.nRows }

/-- `RideDataAgent.analyze_ride_segments` (loaded state). -/
def analyze_ride_segments (df : DataFrame) (segment_type : String) : SegOutcome :=
  match segment_of df segment_type with
  | none => .err ("Unknown segment type: " ++ segment_type)
  | some seg => .ok (reduceSegment seg)

/-!
## Query router (`data_analyzer.py`, `process_natural_query`; `app.py`, `query_data`)
-/

/-- `pat` is an initial run of `s` (character-by-character). -/
def leadsWith : List Char → List Char → Bool
  | [], _ => true
  | _ :: _, [] => false
  | a :: as, b :: bs => a == b && leadsWith as bs

/-- `pat` occurs contiguously somewhere in `s` (Python's `pat in s`). -/
def occursIn (pat : List Char) : List Char → Bool
  | [] => leadsWith pat []
  | c :: rest => leadsWith pat (c :: rest) || occursIn pat rest

/-- `query.lower()`: ASCII-wise lowercasing, written over the character
list so that it evaluates by kernel reduction. -/
def strToLower (s : String) : String := ⟨s.data.map Char.toLower⟩

/-- `kw in ql` on strings. -/
def hasKw (ql : String) (kw : String) : Bool := occursIn kw.data ql.data

/-- The response of `process_natural_query`: which f-string template was
chosen, together with the numeric values interpolated into it (the final
decimal rendering of numbers into characters is abstracted). `plainText`
is a verbatim passthrough string (error/message dict values and fixed
messages); `exn` is an escaped Python exception carrying `str(e)`. -/
inductive Response where
  | secondHalf (m : SegmentMetrics) (overallMph : ℚ) (spedUp : Bool)
  | firstHalf (m : SegmentMetrics)
  | climbs (c : ClimbMetrics)
  | powerZones (zones : List (String × ℚ × ℚ))
  | avgSpeedR (avg mx : ℚ)
  | heartRateR (avg mx : ℚ)
  | lastThird (m : SegmentMetrics)
  | firstThird (m : SegmentMetrics)
  | helpR (total_distance_miles : ℚ) (data_points : ℕ)
  | plainText (s : String)
  | exn (s : String)
deriving DecidableEq

/-- `RideDataAgent.process_natural_query` in the loaded state (the
`ride_data is None` branch is the NoData state, outside these claims),
with the `self.ride_data` mutation explicit in the returned table. -/
def process_natural_query (df : DataFrame) (sd : Summary) (query : String) :
    DataFrame × Response :=
  if hasKw (strToLower query) "second half" || hasKw (strToLower query) "last half" then
    match analyze_ride_segments df "second_half" with
    | .err e => (df, .plainText e)
    | .ok m =>
      (df, .secondHalf m (sd.get "enhanced_avg_speed" 0 * MPS_TO_MPH)
        (ogt m.avg_speed (sd.get "enhanced_avg_speed" 0 * MPS_TO_MPH)))
  else if hasKw (strToLower query) "first half" then
    match analyze_ride_segments df "first_half" with
    | .err e => (df, .plainText e)
    | .ok m => (df, .firstHalf m)
  else if hasKw (strToLower query) "climb" then
    match calculate_gradient_analysis df with
    | (df', .err e) => (df', .plainText e)
    | (df', .msg s) => (df', .plainText s)
    | (df', .exn s) => (df', .exn s)
    | (df', .ok c) => (df', .climbs c)
  else if hasKw (strToLower query) "power" && hasKw (strToLower query) "zone" then
    match analyze_power_zones df with
    | .err e => (df, .plainText e)
    | .ok zs => (df, .powerZones zs)
  else if hasKw (strToLower query) "average" && hasKw (strToLower query) "speed" then
    -- `... if self.session_data else 0`: an empty dict is falsy in Python.
    (df, .avgSpeedR
      (if sd.isEmpty then 0
       else sd.get "enhanced_avg_speed" (sd.get "avg_speed" 0) * MPS_TO_MPH)
      (if sd.isEmpty then 0
       else sd.get "enhanced_max_speed" (sd.get "max_speed" 0) * MPS_TO_MPH))
  else if hasKw (strToLower query) "heart rate" then
    (df, .heartRateR
      (if sd.isEmpty then 0 else sd.get "avg_heart_rate" 0)
      (if sd.isEmpty then 0 else sd.get "max_heart_rate" 0))
  else if hasKw (strToLower query) "last third" || hasKw (strToLower query) "final third" then
    match analyze_ride_segments df "last_third" with
    | .err e => (df, .plainText e)
    | .ok m => (df, .lastThird m)
  else if hasKw (strToLower query) "first third" then
    match analyze_ride_segments df "first_third" with
    | .err e => (df, .plainText e)
    | .ok m => (df, .firstThird m)
  else
    (df, .helpR (sd.get "total_distance" 0 * 0.000621371) df.nRows)

/-- `app.py::query_data`, in the state where a ride is loaded and after the
empty-query guard: the `try/except` around `process_natural_query` turns
any escaped exception into the generic
`'Error processing query: ...'` response. -/
def query_data (df : DataFrame) (sd : Summary) (query_text : String) :
    DataFrame × Response :=
  if query_text = "" then (df, .plainText "Please enter a question!")
  else
    match process_natural_query df sd query_text with
    | (df', .exn e) => (df', .plainText ("Error processing query: " ++ e))
    | other => other

/-!
## Spec-side router decomposition (for the refinement claim C6)

The spec describes classification as ordered, case-insensitive substring
matching over a fixed priority list of intents, first match wins. The
following definitions follow the spec's words; C6 compares them with
`process_natural_query` as translated from the source above.
-/

inductive Intent where
  | secondHalf | firstHalf | climb | powerZones | avgSpeed
  | heartRate | lastThird | firstThird | help
deriving DecidableEq

/-- The spec's fixed priority list of intents: each rule is a keyword
predicate on the lowercased query, paired with its intent. -/
def intentRules : List ((String → Bool) × Intent) :=
  [(fun ql => hasKw ql "second half" || hasKw ql "last half", .secondHalf),
   (fun ql => hasKw ql "first half", .firstHalf),
   (fun ql => hasKw ql "climb", .climb),
   (fun ql => hasKw ql "power" && hasKw ql "zone", .powerZones),
   (fun ql => hasKw ql "average" && hasKw ql "speed", .avgSpeed),
   (fun ql => hasKw ql "heart rate", .heartRate),
   (fun ql => hasKw ql "last third" || hasKw ql "final third", .lastThird),
   (fun ql => hasKw ql "first third", .firstThird)]

/-- First matching rule wins; no rule matches ⇒ the help intent. -/
def firstMatch : List ((String → Bool) × Intent) → String → Intent
  | [], _ => .help
  | r :: rs, ql => if r.1 ql then r.2 else firstMatch rs ql

/-- Spec-side classification: ordered, case-insensitive substring matching
with first-match-wins precedence. -/
def routeIntent (query : String) : Intent := firstMatch intentRules (strToLower query)

/-- Spec-side dispatch: what each intent's handler computes (the bodies are
the templates of `process_natural_query`). -/
def dispatchIntent (df : DataFrame) (sd : Summary) : Intent → DataFrame × Response
  | .secondHalf =>
    match analyze_ride_segments df "second_half" with
    | .err e => (df, .plainText e)
    | .ok m =>
      (df, .secondHalf m (sd.get "enhanced_avg_speed" 0 * MPS_TO_MPH)
        (ogt m.avg_speed (sd.get "enhanced_avg_speed" 0 * MPS_TO_MPH)))
  | .firstHalf =>
    match analyze_ride_segments df "first_half" with
    | .err e => (df, .plainText e)
    | .ok m => (df, .firstHalf m)
  | .climb =>
    match calculate_gradient_analysis df with
    | (df', .err e) => (df', .plainText e)
    | (df', .msg s) => (df', .plainText s)
    | (df', .exn s) => (df', .exn s)
    | (df', .ok c) => (df', .climbs c)
  | .powerZones =>
    match analyze_power_zones df with
    | .err e => (df, .plainText e)
    | .ok zs => (df, .powerZones zs)
  | .avgSpeed =>
    (df, .avgSpeedR
      (if sd.isEmpty then 0
       else sd.get "enhanced_avg_speed" (sd.get "avg_speed" 0) * MPS_TO_MPH)
      (if sd.isEmpty then 0
       else sd.get "enhanced_max_speed" (sd.get "max_speed" 0) * MPS_TO_MPH))
  | .heartRate =>
    (df, .heartRateR
      (if sd.isEmpty then 0 else sd.get "avg_heart_rate" 0)
      (if sd.isEmpty then 0 else sd.get "max_heart_rate" 0))
  | .lastThird =>
    match analyze_ride_segments df "last_third" with
    | .err e => (df, .plainText e)
    | .ok m => (df, .lastThird m)
  | .firstThird =>
    match analyze_ride_segments df "first_third" with
    | .err e => (df, .plainText e)
    | .ok m => (df, .firstThird m)
  | .help =>
    (df, .helpR (sd.get "total_distance" 0 * 0.000621371) df.nRows)

/-- The pointwise gradient formula as the claim states it: the length and
each entry of the derived gradient column — entry 0 is 0 (its differences
are undefined); entry i for 1 ≤ i < n is (Δaltitude / Δdistance) × 100
when both differences are defined and Δdistance ≠ 0, else 0 (the
divide-by-zero and non-finite cases). Stated from the spec's words for
comparison with `computeGradient`. -/
def gradientPointwiseClaim (alt dist : Col) (g : List ℚ) : Prop :=
  g.length = min alt.length dist.length
  ∧ g.getD 0 0 = 0
  ∧ ∀ i, 0 < i → i < g.length →
      g.getD i 0 =
        match deltaAt alt i, deltaAt dist i with
        | some da, some dd => if dd = 0 then 0 else da / dd * 100
        | _, _ => 0

/-- Table whose power column contains a negative sample. -/
def dfC5 : DataFrame := ⟨[("power", [some (-10), some 100])]⟩

/-- Table whose power column is non-missing and non-negative. -/
def dfC5w : DataFrame := ⟨[("power", [some 100, some 200, none])]⟩

/-- Another table with a non-negative power column (for the C10 witness). -/
def dfC10w : DataFrame := ⟨[("power", [some 0, some 50])]⟩

/-!
## Concrete test frames used by the claim theorems below
-/

/-- A ten-row table (one speed column), for the n = 10 slicing example. -/
def df10 : DataFrame := ⟨[("speed", (List.range 10).map (fun i => some (i : ℚ)))]⟩

/-- A nine-row table (one power column), for the n = 9 slicing example. -/
def df9 : DataFrame := ⟨[("power", (List.range 9).map (fun i => some (i : ℚ)))]⟩

/-- A one-row table, used to exercise the metrics extractor. -/
def dfC3 : DataFrame := ⟨[("power", [some 1])]⟩

/-- Two-row table with a plain speed column (10 m/s throughout). -/
def dfC1 : DataFrame := ⟨[("speed", [some 10, some 10])]⟩

/-- Summary with only the plain average-speed field (20 m/s ≈ 44.7 mph). -/
def sdC1 : Summary := [("avg_speed", 20)]

/-- The second-half metrics of `dfC1`. -/
def mC1 : SegmentMetrics :=
  { avg_speed := some (10 * MPS_TO_MPH), max_speed := some (10 * MPS_TO_MPH)
    avg_heart_rate := some 0, max_heart_rate := some 0
    avg_power := some 0, max_power := some 0, data_points := 1 }

/-- A table with an altitude column but no distance column (and no
pre-existing gradient column). -/
def dfC2 : DataFrame := ⟨[("altitude", [some 0, some 10])]⟩

/-- A table with altitude and distance columns (one 10 % step). -/
def dfC4 : DataFrame :=
  ⟨[("altitude", [some 0, some 10]), ("distance", [some 0, some 100])]⟩

/-- Climb metrics of `dfC4` as first computed (steepest gradient 10 %). -/
def gradC4a : ClimbMetrics :=
  { avg_speed_on_climbs := some 0, avg_heart_rate_on_climbs := some 0
    avg_power_on_climbs := some 0, steepest_gradient := some 10
    total_climb_distance := 0.01 * 0.621371, climb_segments := 1 }

/-- Climb metrics after the altitude column is changed to a 100 % step. -/
def gradC4b : ClimbMetrics :=
  { avg_speed_on_climbs := some 0, avg_heart_rate_on_climbs := some 0
    avg_power_on_climbs := some 0, steepest_gradient := some 100
    total_climb_distance := 0.01 * 0.621371, climb_segments := 1 }

/-- `dfC4` after the first climb analysis: gradient column appended. -/
def dfC4grad : DataFrame :=
  ⟨[("altitude", [some 0, some 10]), ("distance", [some 0, some 100]),
    ("gradient", [some 0, some 10])]⟩

/-- The table after mutating the altitude column of `dfC4grad`. -/
def dfC4mut : DataFrame :=
  ⟨[("altitude", [some 0, some 100]), ("distance", [some 0, some 100]),
    ("gradient", [some 0, some 10])]⟩

/-- `dfC4mut` after the second climb analysis overwrote the gradient. -/
def dfC4mutGrad : DataFrame :=
  ⟨[("altitude", [some 0, some 100]), ("distance", [some 0, some 100]),
    ("gradient", [some 0, some 100])]⟩

/-!
## Helper lemmas
-/

theorem nRows_takeRows (df : DataFrame) (k : ℕ) :
    (df.takeRows k).nRows = min k df.nRows := by
  obtain ⟨cols⟩ := df
  cases cols with
  | nil => simp [DataFrame.takeRows, DataFrame.nRows]
  | cons c cs => simp [DataFrame.takeRows, DataFrame.nRows]

theorem nRows_dropRows (df : DataFrame) (k : ℕ) :
    (df.dropRows k).nRows = df.nRows - k := by
  obtain ⟨cols⟩ := df
  cases cols with
  | nil => simp [DataFrame.dropRows, DataFrame.nRows]
  | cons c cs => simp [DataFrame.dropRows, DataFrame.nRows]

/-!
## Claim theorems
-/

/-- C6: query classification in the loaded state is ordered,
case-insensitive substring matching with first-match-wins precedence over
the fixed priority list (second/last half, first half, climb, power+zone,
average+speed, heart rate, last/final third, first third, else help); the
query "how was my climb in the first half" resolves to the first-half
intent, not the climb intent. -/
theorem C6_router_precedence :
    (∀ (df : DataFrame) (sd : Summary) (q : String),
      process_natural_query df sd q = dispatchIntent df sd (routeIntent q))
    ∧ routeIntent "how was my climb in the first half" = Intent.firstHalf := by
  constructor
  · intro df sd q
    simp only [process_natural_query, routeIntent, intentRules, firstMatch, dispatchIntent]
    split_ifs <;> rfl
  · decide

/-- C7: positional segment selection uses integer-division boundaries
(first_half = rows[0 : n/2], second_half = rows[n/2 : n], first_third =
rows[0 : n/3], last_third = rows[2n/3 : n]); the two halves' sizes sum to
n; an unrecognized segment kind yields the "Unknown segment type"
condition. -/
theorem C7_positional_segments (df : DataFrame) :
    segment_of df "first_half" = some (df.takeRows (df.nRows / 2))
    ∧ segment_of df "second_half" = some (df.dropRows (df.nRows / 2))
    ∧ segment_of df "first_third" = some (df.takeRows (df.nRows / 3))
    ∧ segment_of df "last_third" = some (df.dropRows (2 * df.nRows / 3))
    ∧ (df.takeRows (df.nRows / 2)).nRows + (df.dropRows (df.nRows / 2)).nRows = df.nRows
    ∧ (df.takeRows (df.nRows / 3)).nRows = df.nRows / 3
    ∧ (df.dropRows (2 * df.nRows / 3)).nRows = df.nRows - 2 * df.nRows / 3
    ∧ ∀ kind,
        kind ∉ (["first_half", "second_half", "first_third", "last_third"] : List String) →
        analyze_ride_segments df kind = .err ("Unknown segment type: " ++ kind) := by
  refine ⟨by simp [segment_of], by simp [segment_of], by simp [segment_of],
    by simp [segment_of], ?_, ?_, ?_, ?_⟩
  · rw [nRows_takeRows, nRows_dropRows]; omega
  · rw [nRows_takeRows]; omega
  · rw [nRows_dropRows]
  · intro kind hk
    simp only [List.mem_cons, List.not_mem_nil, or_false, not_or] at hk
    obtain ⟨h1, h2, h3, h4⟩ := hk
    simp [analyze_ride_segments, segment_of, h1, h2, h3, h4]

theorem C7_witness :
    segment_of df10 "first_half" = some (df10.takeRows 5)
    ∧ segment_of df10 "second_half" = some (df10.dropRows 5)
    ∧ (df10.takeRows 5).nRows + (df10.dropRows 5).nRows = 10
    ∧ segment_of df9 "first_third" = some (df9.takeRows 3)
    ∧ segment_of df9 "last_third" = some (df9.dropRows 6)
    ∧ "wiggle" ∉ (["first_half", "second_half", "first_third", "last_third"] : List String)
    ∧ analyze_ride_segments df10 "wiggle" = .err "Unknown segment type: wiggle" := by
  have h := C7_positional_segments df10
  have h9 := C7_positional_segments df9
  have e10 : df10.nRows = 10 := rfl
  have e9 : df9.nRows = 9 := rfl
  rw [e10] at h
  rw [e9] at h9
  exact ⟨h.1, h.2.1, h.2.2.2.2.1, h9.2.2.1, h9.2.2.2.1,
    by decide, h.2.2.2.2.2.2.2 "wiggle" (by decide)⟩

/-- C3 counterexample: on a non-empty table with summary
`{normalized_power: 5}`, the extracted `max_power` is 5 (the code falls
back from `max_power` to `normalized_power`), whereas the claim's
enhanced-key/plain-key/0 chain demands 0; and on an empty table the code
returns the empty record `{}`, not the all-zero twelve-field record. -/
theorem C3_counterexample :
    (extract_ride_metrics dfC3 [("normalized_power", 5)]).map (fun r => r.max_power) = some 5
    ∧ extract_ride_metrics ⟨[]⟩ [("total_distance", 1000)] = none := by
  constructor
  · simp [extract_ride_metrics, dfC3, DataFrame.nRows, Summary.get, Summary.hasKey]
  · simp [extract_ride_metrics, DataFrame.nRows]

/-- C3 (amended): for every loaded *non-empty* table and summary record,
extraction returns all twelve headline fields with numeric values, each
field given by its key chain with fallback 0 and unit conversion at
extraction time — except `max_power`, which falls back from the plain key
to `normalized_power` and only then to 0; an empty *summary* (with a
non-empty table) yields the all-zero record, while an empty *table*
yields the empty record. -/
theorem C3_extract_metrics (df : DataFrame) (sd : Summary) (h : df.nRows ≠ 0) :
    extract_ride_metrics df sd = some {
      total_distance := sd.get "total_distance" 0 * METERS_TO_MILES
      total_time :=
        if sd.hasKey "total_timer_time" then sd.get "total_timer_time" 0 / 3600 else 0
      avg_speed := sd.get "enhanced_avg_speed" (sd.get "avg_speed" 0) * MPS_TO_MPH
      max_speed := sd.get "enhanced_max_speed" (sd.get "max_speed" 0) * MPS_TO_MPH
      avg_heart_rate := sd.get "avg_heart_rate" 0
      max_heart_rate := sd.get "max_heart_rate" 0
      avg_power := sd.get "avg_power" 0
      max_power := sd.get "max_power" (sd.get "normalized_power" 0)
      total_ascent := sd.get "total_ascent" 0 * METERS_TO_FEET
      total_descent := sd.get "total_descent" 0 * METERS_TO_FEET
      normalized_power := sd.get "normalized_power" 0
      training_stress_score := sd.get "training_stress_score" 0 }
    ∧ extract_ride_metrics df [] =
      some (⟨0, 0, 0, 0, 0, 0, 0, 0, 0, 0, 0, 0⟩ : MetricsRecord) := by
  constructor
  · simp [extract_ride_metrics, h]
  · simp only [extract_ride_metrics, h, if_false, Summary.get, Summary.hasKey,
      if_neg (fun hh => h hh)]
    norm_num [MetricsRecord.mk.injEq]

theorem C3_witness :
    dfC3.nRows ≠ 0
    ∧ extract_ride_metrics dfC3 [] =
      some (⟨0, 0, 0, 0, 0, 0, 0, 0, 0, 0, 0, 0⟩ : MetricsRecord) :=
  ⟨by decide, (C3_extract_metrics dfC3 [] (by decide)).2⟩

/-- C1 (amended): for every loaded table and summary record, a query whose
lowercased text contains "second half" or "last half" returns the
second-half segment analysis together with a comparison of the second-half
average speed against the summary's `enhanced_avg_speed` converted to mph,
defaulting to 0 when that key is absent (the plain `avg_speed` field is
*not* consulted as a fallback in this branch): 'sped up' iff the
second-half average strictly exceeds that value, 'slowed down' otherwise. -/
theorem C1_second_half (df : DataFrame) (sd : Summary) (q : String)
    (h : hasKw (strToLower q) "second half" = true
       ∨ hasKw (strToLower q) "last half" = true) :
    process_natural_query df sd q =
      (df, .secondHalf (reduceSegment (df.dropRows (df.nRows / 2)))
        (sd.get "enhanced_avg_speed" 0 * MPS_TO_MPH)
        (ogt (reduceSegment (df.dropRows (df.nRows / 2))).avg_speed
          (sd.get "enhanced_avg_speed" 0 * MPS_TO_MPH))) := by
  have hc : (hasKw (strToLower q) "second half"
      || hasKw (strToLower q) "last half") = true := by
    rcases h with h | h <;> simp [h]
  simp [process_natural_query, hc, analyze_ride_segments, segment_of]

/-- C1 counterexample: with summary `{avg_speed: 20}` (no enhanced key),
the ride's overall average under the claim's enhanced-preferred,
plain-fallback rule is ≈44.7 mph and the second-half average is ≈22.4 mph,
so the claim demands 'slowed down'; the code compares against
`get('enhanced_avg_speed', 0) = 0` mph and answers 'sped up'
(the `true` flag below). -/
theorem C1_counterexample :
    process_natural_query dfC1 sdC1 "second half" =
      (dfC1, .secondHalf mC1 0 true)
    ∧ ogt mC1.avg_speed
        (sdC1.get "enhanced_avg_speed" (sdC1.get "avg_speed" 0) * MPS_TO_MPH) = false := by
  constructor
  · have hc : (hasKw (strToLower "second half") "second half"
        || hasKw (strToLower "second half") "last half") = true := by decide
    have hseg : analyze_ride_segments dfC1 "second_half" = .ok mC1 := by
      simp [analyze_ride_segments, segment_of, dfC1, DataFrame.nRows,
        DataFrame.dropRows, reduceSegment, DataFrame.hasCol, DataFrame.getCol,
        lookupCol, omean, omax, oscale, mC1]
    have hov : sdC1.get "enhanced_avg_speed" 0 = 0 := by
      simp [sdC1, Summary.get]
    simp [process_natural_query, hc, hseg, hov, mC1, ogt, MPS_TO_MPH]
    norm_num
  · simp [ogt, mC1, sdC1, Summary.get, MPS_TO_MPH]
    norm_num

theorem C1_witness :
    (hasKw (strToLower "last half?") "second half" = true
      ∨ hasKw (strToLower "last half?") "last half" = true)
    ∧ process_natural_query dfC1 sdC1 "last half?" =
      (dfC1, .secondHalf (reduceSegment (dfC1.dropRows (dfC1.nRows / 2)))
        (sdC1.get "enhanced_avg_speed" 0 * MPS_TO_MPH)
        (ogt (reduceSegment (dfC1.dropRows (dfC1.nRows / 2))).avg_speed
          (sdC1.get "enhanced_avg_speed" 0 * MPS_TO_MPH))) :=
  ⟨Or.inr (by decide), C1_second_half dfC1 sdC1 "last half?" (Or.inr (by decide))⟩

/-- C2 (code bug evaluation): a "climb" query on a table with altitude but
no distance does not degrade to 0 / a 'no data' message:
`calculate_gradient_analysis` skips the gradient computation (guarded by
`if 'distance' in columns`) yet then reads `self.ride_data['gradient']`
unconditionally, raising `KeyError('gradient')`; the exception escapes
`process_natural_query` and is converted to the generic
'Error processing query: ...' text only by the `try/except` at the
`query_data` boundary in `app.py`. -/
theorem C2_climb_keyerror :
    process_natural_query dfC2 [] "climb" = (dfC2, .exn "'gradient'")
    ∧ query_data dfC2 [] "climb" =
      (dfC2, .plainText "Error processing query: 'gradient'") := by
  have hc1 : (hasKw (strToLower "climb") "second half"
      || hasKw (strToLower "climb") "last half") = false := by decide
  have hc2 : hasKw (strToLower "climb") "first half" = false := by decide
  have hc3 : hasKw (strToLower "climb") "climb" = true := by decide
  have hgrad : calculate_gradient_analysis dfC2 = (dfC2, .exn "'gradient'") := by
    simp [calculate_gradient_analysis, chooseAltCol, writeGradient, climbStats,
      dfC2, DataFrame.hasCol, DataFrame.getCol, lookupCol]
  have hq : process_natural_query dfC2 [] "climb" = (dfC2, .exn "'gradient'") := by
    simp [process_natural_query, hc1, hc2, hc3, hgrad]
  refine ⟨hq, ?_⟩
  simp [query_data, hq]

theorem C4_first_call : calculate_gradient_analysis dfC4 = (dfC4grad, .ok gradC4a) := by
  have hg : computeGradient [some 0, some 10] [some 0, some 100] = [0, 10] := by
    simp [computeGradient, diffO, subO]
  have hmax : omax [some (10 : ℚ)] = some 10 := by simp [omax]
  have hmf : List.filterMap (fun bv => if bv.1 = true then some bv.2 else none)
      [((true : Bool), some (10 : ℚ))] = [some 10] := rfl
  simp [calculate_gradient_analysis, chooseAltCol, writeGradient, climbStats,
    dfC4, dfC4grad, gradC4a, DataFrame.hasCol,
    DataFrame.getCol, DataFrame.setCol, DataFrame.filterRows, DataFrame.nRows,
    lookupCol, maskFilter, oscale, ogt, hg]
  norm_num
  rw [hmf]
  norm_num [hmax]

theorem C4_second_call :
    calculate_gradient_analysis dfC4mut = (dfC4mutGrad, .ok gradC4b) := by
  have hg : computeGradient [some 0, some 100] [some 0, some 100] = [0, 100] := by
    simp [computeGradient, diffO, subO]
  have hmax : omax [some (100 : ℚ)] = some 100 := by simp [omax]
  have hmf : List.filterMap (fun bv => if bv.1 = true then some bv.2 else none)
      [((true : Bool), some (100 : ℚ))] = [some 100] := rfl
  simp [calculate_gradient_analysis, chooseAltCol, writeGradient, climbStats,
    dfC4mut, dfC4mutGrad, gradC4b, DataFrame.hasCol,
    DataFrame.getCol, DataFrame.setCol, DataFrame.filterRows, DataFrame.nRows,
    lookupCol, maskFilter, oscale, ogt, hg]
  norm_num
  rw [hmf]
  norm_num [hmax]

/-- C4 counterexample: gradient is *not* memoized. After a first climb
analysis (which stores gradient [0, 10]), mutating the altitude column and
running a second climb analysis recomputes gradient from the mutated
altitude and reports a different result (steepest 100 % instead of 10 %),
so the second call's result *is* changed by the mutation, contrary to the
claim. -/
theorem C4_counterexample :
    (calculate_gradient_analysis dfC4).2 = .ok gradC4a
    ∧ (calculate_gradient_analysis
        (((calculate_gradient_analysis dfC4).1).setCol "altitude"
          [some 0, some 100])).2 = .ok gradC4b
    ∧ GradOutcome.ok gradC4b ≠ GradOutcome.ok gradC4a := by
  refine ⟨by rw [C4_first_call], ?_, ?_⟩
  · rw [C4_first_call]
    have hset : dfC4grad.setCol "altitude" [some 0, some 100] = dfC4mut := by
      simp [DataFrame.setCol, dfC4grad, DataFrame.hasCol, DataFrame.getCol,
        lookupCol, dfC4mut]
    rw [hset, C4_second_call]
  · simp [gradC4a, gradC4b]

/-!
## setCol lookup lemmas
-/

theorem lookupCol_replace_self (l : List (String × Col)) (n : String) (v : Col)
    (h : (lookupCol l n).isSome = true) :
    lookupCol (l.map (fun p => if p.1 = n then (n, v) else p)) n = some v := by
  induction l with
  | nil => simp [lookupCol] at h
  | cons p rest ih =>
    obtain ⟨a, b⟩ := p
    have hf : (if ((a, b) : String × Col).1 = n then (n, v) else (a, b))
        = if a = n then (n, v) else (a, b) := rfl
    rw [List.map_cons, hf]
    by_cases hp : a = n
    · rw [if_pos hp]
      simp [lookupCol]
    · rw [if_neg hp]
      have h' : (lookupCol rest n).isSome = true := by
        simpa [lookupCol, hp] using h
      simpa [lookupCol, hp] using ih h'

theorem lookupCol_append_self (l : List (String × Col)) (n : String) (v : Col)
    (h : lookupCol l n = none) :
    lookupCol (l ++ [(n, v)]) n = some v := by
  induction l with
  | nil => simp [lookupCol]
  | cons p rest ih =>
    obtain ⟨a, b⟩ := p
    by_cases hp : a = n
    · simp [lookupCol, hp] at h
    · have h' : lookupCol rest n = none := by
        simpa [lookupCol, hp] using h
      simpa [lookupCol, hp] using ih h'

theorem getCol_setCol_self (df : DataFrame) (n : String) (v : Col) :
    (df.setCol n v).getCol n = some v := by
  unfold DataFrame.setCol
  by_cases h : df.hasCol n
  · simp only [h, if_true]
    exact lookupCol_replace_self df.cols n v h
  · simp only [h, if_false]
    have hn : lookupCol df.cols n = none := by
      revert h
      unfold DataFrame.hasCol DataFrame.getCol
      cases lookupCol df.cols n <;> simp
    exact lookupCol_append_self df.cols n v hn

theorem lookupCol_replace_ne (l : List (String × Col)) (n : String) (v : Col)
    (m : String) (h : m ≠ n) :
    lookupCol (l.map (fun p => if p.1 = n then (n, v) else p)) m = lookupCol l m := by
  induction l with
  | nil => simp [lookupCol]
  | cons p rest ih =>
    obtain ⟨a, b⟩ := p
    have hf : (if ((a, b) : String × Col).1 = n then (n, v) else (a, b))
        = if a = n then (n, v) else (a, b) := rfl
    rw [List.map_cons, hf]
    by_cases hp : a = n
    · rw [if_pos hp]
      subst hp
      simp [lookupCol, Ne.symm h, ih]
    · rw [if_neg hp]
      simp [lookupCol, ih]

theorem lookupCol_append_ne (l : List (String × Col)) (n : String) (v : Col)
    (m : String) (h : m ≠ n) :
    lookupCol (l ++ [(n, v)]) m = lookupCol l m := by
  induction l with
  | nil => simp [lookupCol, Ne.symm h]
  | cons p rest ih =>
    obtain ⟨a, b⟩ := p
    by_cases hp : a = m
    · simp [lookupCol, hp]
    · simp [lookupCol, hp, ih]

theorem getCol_setCol_ne (df : DataFrame) (n : String) (v : Col)
    (m : String) (h : m ≠ n) :
    (df.setCol n v).getCol m = df.getCol m := by
  unfold DataFrame.setCol
  by_cases hc : df.hasCol n
  · simp only [hc, if_true]
    exact lookupCol_replace_ne df.cols n v m h
  · simp only [hc, if_false]
    exact lookupCol_append_ne df.cols n v m h

theorem fst_setCol (df : DataFrame) (n : String) (v : Col) :
    (df.setCol n v).cols.map Prod.fst = df.cols.map Prod.fst
    ∨ (df.setCol n v).cols.map Prod.fst = df.cols.map Prod.fst ++ [n] := by
  unfold DataFrame.setCol
  by_cases hc : df.hasCol n
  · left
    simp only [hc, if_true]
    induction df.cols with
    | nil => simp
    | cons p rest ih =>
      obtain ⟨a, b⟩ := p
      have hf : (if ((a, b) : String × Col).1 = n then (n, v) else (a, b))
          = if a = n then (n, v) else (a, b) := rfl
      rw [List.map_cons, hf]
      by_cases hp : a = n
      · rw [if_pos hp]
        subst hp
        simpa using ih
      · rw [if_neg hp]
        simpa using ih
  · right
    simp [hc]

/-!
## Frame lemmas for the gradient mutation
-/

theorem writeGradient_fst (df : DataFrame) (altName : String) :
    writeGradient df altName = df
    ∨ ∃ v, writeGradient df altName = df.setCol "gradient" v := by
  unfold writeGradient
  rcases hd : df.getCol "distance" with _ | dist
  · exact Or.inl rfl
  · rcases ha : df.getCol altName with _ | alt
    · exact Or.inl rfl
    · exact Or.inr ⟨_, rfl⟩

theorem climbStats_fst (df1 : DataFrame) : (climbStats df1).1 = df1 := by
  unfold climbStats
  rcases hg : df1.getCol "gradient" with _ | g
  · rfl
  · try dsimp only
    split_ifs <;> rfl

/-- `calculate_gradient_analysis` leaves the table unchanged or writes only
the `gradient` column. -/
theorem calcGrad_fst (df : DataFrame) :
    (calculate_gradient_analysis df).1 = df
    ∨ ∃ v, (calculate_gradient_analysis df).1 = df.setCol "gradient" v := by
  unfold calculate_gradient_analysis
  rcases chooseAltCol df with _ | altName
  · exact Or.inl rfl
  · rw [climbStats_fst]
    exact writeGradient_fst df altName

set_option maxHeartbeats 1600000 in
/-- `process_natural_query` leaves the table unchanged or writes only the
`gradient` column. -/
theorem pnq_fst (df : DataFrame) (sd : Summary) (q : String) :
    (process_natural_query df sd q).1 = df
    ∨ ∃ v, (process_natural_query df sd q).1 = df.setCol "gradient" v := by
  unfold process_natural_query
  split_ifs <;>
    first
    | exact Or.inl rfl
    | (cases analyze_ride_segments df "second_half" <;> exact Or.inl rfl)
    | (cases analyze_ride_segments df "first_half" <;> exact Or.inl rfl)
    | (cases analyze_ride_segments df "last_third" <;> exact Or.inl rfl)
    | (cases analyze_ride_segments df "first_third" <;> exact Or.inl rfl)
    | (cases analyze_power_zones df <;> exact Or.inl rfl)
    | (have hh := calcGrad_fst df
       rcases hcall : calculate_gradient_analysis df with ⟨df', out⟩
       rw [hcall] at hh
       cases out <;> simpa using hh)

/-- C9: the summary record is a read-only input everywhere (no operation
of the embedding takes or returns it mutably), and the sample table is
changed by query answering at most in the `gradient` column: every other
column keeps its exact cell list (hence values and row order), and the
column-name sequence is preserved or extended by `gradient` at the end;
the same holds for `calculate_gradient_analysis` itself (power-zone and
segment analyses are pure functions of the table in the model, as in the
source they perform no assignment). -/
theorem C9_frame (df : DataFrame) (sd : Summary) (q : String) :
    (∀ m, m ≠ "gradient" →
      ((process_natural_query df sd q).1).getCol m = df.getCol m)
    ∧ (((process_natural_query df sd q).1).cols.map Prod.fst = df.cols.map Prod.fst
       ∨ ((process_natural_query df sd q).1).cols.map Prod.fst
         = df.cols.map Prod.fst ++ ["gradient"])
    ∧ (∀ m, m ≠ "gradient" →
      ((calculate_gradient_analysis df).1).getCol m = df.getCol m) := by
  refine ⟨?_, ?_, ?_⟩
  · intro m hm
    rcases pnq_fst df sd q with h | ⟨v, h⟩
    · rw [h]
    · rw [h, getCol_setCol_ne df "gradient" v m hm]
  · rcases pnq_fst df sd q with h | ⟨v, h⟩
    · rw [h]
      exact Or.inl rfl
    · rw [h]
      exact fst_setCol df "gradient" v
  · intro m hm
    rcases calcGrad_fst df with h | ⟨v, h⟩
    · rw [h]
    · rw [h, getCol_setCol_ne df "gradient" v m hm]

theorem C9_witness :
    ("speed" : String) ≠ "gradient"
    ∧ ((process_natural_query dfC4 sdC1 "climb").1).getCol "speed" = dfC4.getCol "speed" :=
  ⟨by decide, (C9_frame dfC4 sdC1 "climb").1 "speed" (by decide)⟩

/-!
## Gradient pointwise lemmas (C8, C4)
-/

theorem zipWith_getD {α β γ : Type} (f : α → β → γ) (l1 : List α) (l2 : List β)
    (d1 : α) (d2 : β) (d3 : γ) :
    ∀ (j : ℕ), j < l1.length → j < l2.length →
    (List.zipWith f l1 l2).getD j d3 = f (l1.getD j d1) (l2.getD j d2) := by
  induction l1 generalizing l2 with
  | nil => intro j h1 h2; simp at h1
  | cons a l1 ih =>
    intro j h1 h2
    cases l2 with
    | nil => simp at h2
    | cons b l2 =>
      cases j with
      | zero => rfl
      | succ j =>
        simpa using ih l2 j (by simpa using h1) (by simpa using h2)

theorem diffO_length (c : Col) : (diffO c).length = c.length := by
  cases c with
  | nil => rfl
  | cons x xs => simp [diffO]

theorem diffO_getD_zero (c : Col) : (diffO c).getD 0 none = none := by
  cases c <;> rfl

theorem diffO_getD_succ (c : Col) (j : ℕ) (h : j + 1 < c.length) :
    (diffO c).getD (j + 1) none = deltaAt c (j + 1) := by
  cases c with
  | nil => simp at h
  | cons x xs =>
    have hlen : j < xs.length := by simpa using h
    show (List.zipWith subO xs (x :: xs)).getD j none = deltaAt (x :: xs) (j + 1)
    rw [zipWith_getD subO xs (x :: xs) none none none j hlen (by simpa using Nat.lt_succ_of_lt hlen)]
    unfold deltaAt
    simp [List.getD_cons_succ]

theorem computeGradient_spec (alt dist : Col) :
    gradientPointwiseClaim alt dist (computeGradient alt dist) := by
  have hlen : (computeGradient alt dist).length = min alt.length dist.length := by
    simp [computeGradient, diffO_length]
  refine ⟨hlen, ?_, ?_⟩
  · cases alt with
    | nil => rfl
    | cons a as =>
      cases dist with
      | nil => rfl
      | cons d ds => rfl
  · intro i h0 hi
    obtain ⟨j, rfl⟩ : ∃ j, i = j + 1 := ⟨i - 1, by omega⟩
    rw [hlen] at hi
    have hia : j + 1 < alt.length := by omega
    have hid : j + 1 < dist.length := by omega
    have ha' : j + 1 < (diffO alt).length := by rw [diffO_length]; exact hia
    have hd' : j + 1 < (diffO dist).length := by rw [diffO_length]; exact hid
    unfold computeGradient
    rw [zipWith_getD _ (diffO alt) (diffO dist) none none 0 (j + 1) ha' hd']
    rw [diffO_getD_succ alt j hia, diffO_getD_succ dist j hid]

/-- When the chosen altitude column and a distance column are present,
`calculate_gradient_analysis` always writes the gradient column recomputed
from the *current* columns (regardless of any pre-existing gradient). -/
theorem calcGrad_writes (df : DataFrame) (altName : String) (alt dist : Col)
    (hN : altName = (if df.hasCol "enhanced_altitude" then "enhanced_altitude" else "altitude"))
    (hA : df.getCol altName = some alt)
    (hD : df.getCol "distance" = some dist) :
    (calculate_gradient_analysis df).1 =
      df.setCol "gradient" ((computeGradient alt dist).map some) := by
  have hw : writeGradient df altName
      = df.setCol "gradient" ((computeGradient alt dist).map some) := by
    unfold writeGradient
    rw [hD, hA]
  have hcc : chooseAltCol df = some altName := by
    unfold chooseAltCol
    by_cases hE : df.hasCol "enhanced_altitude"
    · rw [if_pos hE, hN, if_pos hE]
    · rw [hN, if_neg hE] at hA
      have hhc : df.hasCol "altitude" = true := by
        unfold DataFrame.hasCol
        rw [hA]
        rfl
      rw [if_neg hE, if_pos hhc, hN, if_neg hE]
  unfold calculate_gradient_analysis
  rw [hcc]
  show (climbStats (writeGradient df altName)).1
      = df.setCol "gradient" ((computeGradient alt dist).map some)
  rw [climbStats_fst, hw]

/-- C4 (amended): gradient is *not* memoized — each climb analysis
recomputes the gradient column from the current altitude (enhanced
preferred) and distance columns and writes it back, overwriting any
previously stored gradient; hence mutating the altitude column between two
climb analyses changes the second call's result accordingly
(`C4_counterexample` exhibits this with a concrete mutation). -/
theorem C4_recompute (df : DataFrame) (altName : String) (alt dist : Col)
    (hN : altName = (if df.hasCol "enhanced_altitude" then "enhanced_altitude" else "altitude"))
    (hA : df.getCol altName = some alt)
    (hD : df.getCol "distance" = some dist) :
    (calculate_gradient_analysis df).1 =
      df.setCol "gradient" ((computeGradient alt dist).map some)
    ∧ (calculate_gradient_analysis df).1.getCol "gradient"
      = some ((computeGradient alt dist).map some) := by
  have h := calcGrad_writes df altName alt dist hN hA hD
  exact ⟨h, by rw [h, getCol_setCol_self]⟩

theorem C4_witness :
    ("altitude" : String)
      = (if dfC4mut.hasCol "enhanced_altitude" then "enhanced_altitude" else "altitude")
    ∧ dfC4mut.getCol "altitude" = some [some 0, some 100]
    ∧ dfC4mut.getCol "distance" = some [some 0, some 100]
    ∧ ((calculate_gradient_analysis dfC4mut).1 =
        dfC4mut.setCol "gradient"
          ((computeGradient [some 0, some 100] [some 0, some 100]).map some)
      ∧ (calculate_gradient_analysis dfC4mut).1.getCol "gradient"
        = some ((computeGradient [some 0, some 100] [some 0, some 100]).map some)) := by
  refine ⟨?_, ?_, ?_, ?_⟩
  · simp [dfC4mut, DataFrame.hasCol, DataFrame.getCol, lookupCol]
  · simp [dfC4mut, DataFrame.getCol, lookupCol]
  · simp [dfC4mut, DataFrame.getCol, lookupCol]
  · exact C4_recompute dfC4mut "altitude" [some 0, some 100] [some 0, some 100]
      (by simp [dfC4mut, DataFrame.hasCol, DataFrame.getCol, lookupCol])
      (by simp [dfC4mut, DataFrame.getCol, lookupCol])
      (by simp [dfC4mut, DataFrame.getCol, lookupCol])

/-- C8: gradient derivation. If neither altitude column exists, the
analysis signals "No altitude data available" without computing. When the
preferred altitude column (enhanced first) and the distance column exist,
the gradient column written onto the table is exactly `computeGradient`,
whose entries satisfy the claim's pointwise formula: entry 0 is 0, and
entry i (1 ≤ i < n) is (Δaltitude / Δdistance) × 100 when both differences
are defined with Δdistance ≠ 0, else 0. -/
theorem C8_gradient (df : DataFrame) :
    (df.getCol "enhanced_altitude" = none → df.getCol "altitude" = none →
      calculate_gradient_analysis df = (df, .err "No altitude data available"))
    ∧ ∀ altName alt dist,
        altName = (if df.hasCol "enhanced_altitude" then "enhanced_altitude" else "altitude") →
        df.getCol altName = some alt →
        df.getCol "distance" = some dist →
        (calculate_gradient_analysis df).1.getCol "gradient"
            = some ((computeGradient alt dist).map some)
        ∧ gradientPointwiseClaim alt dist (computeGradient alt dist) := by
  constructor
  · intro hE hA
    have hcc : chooseAltCol df = none := by
      unfold chooseAltCol DataFrame.hasCol
      rw [hE, hA]
      rfl
    unfold calculate_gradient_analysis
    rw [hcc]
  · intro altName alt dist hN hA hD
    refine ⟨?_, computeGradient_spec alt dist⟩
    rw [calcGrad_writes df altName alt dist hN hA hD, getCol_setCol_self]

theorem C8_witness :
    (dfC4.getCol "enhanced_altitude" = none ∧ dfC4.getCol "altitude" = some [some 0, some 10]
      ∧ dfC4.getCol "distance" = some [some 0, some 100])
    ∧ ((calculate_gradient_analysis dfC4).1.getCol "gradient"
        = some ((computeGradient [some 0, some 10] [some 0, some 100]).map some)
      ∧ gradientPointwiseClaim [some 0, some 10] [some 0, some 100]
          (computeGradient [some 0, some 10] [some 0, some 100])) := by
  refine ⟨⟨?_, ?_, ?_⟩, ?_⟩
  · simp [dfC4, DataFrame.getCol, lookupCol]
  · simp [dfC4, DataFrame.getCol, lookupCol]
  · simp [dfC4, DataFrame.getCol, lookupCol]
  · exact (C8_gradient dfC4).2 "altitude" [some 0, some 10] [some 0, some 100]
      (by simp [dfC4, DataFrame.hasCol, DataFrame.getCol, lookupCol])
      (by simp [dfC4, DataFrame.getCol, lookupCol])
      (by simp [dfC4, DataFrame.getCol, lookupCol])

/-!
## Power zone partition lemmas (C5, C10)
-/

/-- For a non-negative sample, exactly one of the six zone ranges contains
it, whatever the threshold estimate is. -/
theorem zoneMem_exactlyOne (t a : ℚ) (ha : 0 ≤ a) :
    ((if inRange 0 (some (0.55 * t)) a then 1 else 0)
     + ((if inRange (0.55 * t) (some (0.75 * t)) a then 1 else 0)
     + ((if inRange (0.75 * t) (some (0.9 * t)) a then 1 else 0)
     + ((if inRange (0.9 * t) (some (1.05 * t)) a then 1 else 0)
     + ((if inRange (1.05 * t) (some (1.2 * t)) a then 1 else 0)
     + (if inRange (1.2 * t) none a then 1 else 0)))))) = (1 : ℕ) := by
  simp only [inRange, Bool.and_eq_true, decide_eq_true_eq, Bool.and_true]
  rcases lt_or_le a (0.55 * t) with h1 | h1
  · rw [if_pos ⟨ha, h1⟩, if_neg (by rintro ⟨hx, hy⟩; linarith),
      if_neg (by rintro ⟨hx, hy⟩; linarith), if_neg (by rintro ⟨hx, hy⟩; linarith),
      if_neg (by rintro ⟨hx, hy⟩; linarith), if_neg (by intro hx; linarith)]
  · rcases lt_or_le a (0.75 * t) with h2 | h2
    · rw [if_neg (by rintro ⟨hx, hy⟩; linarith), if_pos ⟨h1, h2⟩,
        if_neg (by rintro ⟨hx, hy⟩; linarith), if_neg (by rintro ⟨hx, hy⟩; linarith),
        if_neg (by rintro ⟨hx, hy⟩; linarith), if_neg (by intro hx; linarith)]
    · rcases lt_or_le a (0.9 * t) with h3 | h3
      · rw [if_neg (by rintro ⟨hx, hy⟩; linarith), if_neg (by rintro ⟨hx, hy⟩; linarith),
          if_pos ⟨h2, h3⟩, if_neg (by rintro ⟨hx, hy⟩; linarith),
          if_neg (by rintro ⟨hx, hy⟩; linarith), if_neg (by intro hx; linarith)]
      · rcases lt_or_le a (1.05 * t) with h4 | h4
        · rw [if_neg (by rintro ⟨hx, hy⟩; linarith), if_neg (by rintro ⟨hx, hy⟩; linarith),
            if_neg (by rintro ⟨hx, hy⟩; linarith), if_pos ⟨h3, h4⟩,
            if_neg (by rintro ⟨hx, hy⟩; linarith), if_neg (by intro hx; linarith)]
        · rcases lt_or_le a (1.2 * t) with h5 | h5
          · rw [if_neg (by rintro ⟨hx, hy⟩; linarith), if_neg (by rintro ⟨hx, hy⟩; linarith),
              if_neg (by rintro ⟨hx, hy⟩; linarith), if_neg (by rintro ⟨hx, hy⟩; linarith),
              if_pos ⟨h4, h5⟩, if_neg (by intro hx; linarith)]
          · rw [if_neg (by rintro ⟨hx, hy⟩; linarith), if_neg (by rintro ⟨hx, hy⟩; linarith),
              if_neg (by rintro ⟨hx, hy⟩; linarith), if_neg (by rintro ⟨hx, hy⟩; linarith),
              if_neg (by rintro ⟨hx, hy⟩; linarith), if_pos h5]

/-- Over a list of non-negative samples, the six zone counts partition the
list: they sum to its length. -/
theorem zone_counts_partition (t : ℚ) (l : List ℚ) (h : ∀ x ∈ l, 0 ≤ x) :
    l.countP (fun x => inRange 0 (some (0.55 * t)) x)
    + (l.countP (fun x => inRange (0.55 * t) (some (0.75 * t)) x)
    + (l.countP (fun x => inRange (0.75 * t) (some (0.9 * t)) x)
    + (l.countP (fun x => inRange (0.9 * t) (some (1.05 * t)) x)
    + (l.countP (fun x => inRange (1.05 * t) (some (1.2 * t)) x)
    + l.countP (fun x => inRange (1.2 * t) none x))))) = l.length := by
  induction l with
  | nil => simp
  | cons a l ih =>
    have ha : 0 ≤ a := h a (List.mem_cons_self a l)
    have hl : ∀ x ∈ l, 0 ≤ x := fun x hx => h x (List.mem_cons_of_mem a hx)
    have key := zoneMem_exactlyOne t a ha
    have ih' := ih hl
    simp only [List.countP_cons, List.length_cons]
    omega

/-- Zone time percentages sum to exactly 100 over any non-empty list of
non-negative power samples, for any threshold. -/
theorem zoneStats_pct_sum (t : ℚ) (pd : List ℚ) (hne : pd ≠ [])
    (hnn : ∀ x ∈ pd, 0 ≤ x) :
    ((zoneStatsAt t pd).map (fun s => s.2.1)).sum = 100 := by
  have hcount := zone_counts_partition t pd hnn
  have hNnat : pd.length ≠ 0 := fun h0 => hne (List.length_eq_zero.mp h0)
  have hN : (0 : ℚ) < (pd.length : ℚ) := by exact_mod_cast Nat.pos_of_ne_zero hNnat
  simp only [zoneStatsAt, zonesList, List.map_cons, List.map_nil, List.sum_cons,
    List.sum_nil, ← List.countP_eq_length_filter]
  have hsum : ((pd.countP (fun x => inRange 0 (some (0.55 * t)) x) : ℚ)
      + ((pd.countP (fun x => inRange (0.55 * t) (some (0.75 * t)) x) : ℚ)
      + ((pd.countP (fun x => inRange (0.75 * t) (some (0.9 * t)) x) : ℚ)
      + ((pd.countP (fun x => inRange (0.9 * t) (some (1.05 * t)) x) : ℚ)
      + ((pd.countP (fun x => inRange (1.05 * t) (some (1.2 * t)) x) : ℚ)
      + (pd.countP (fun x => inRange (1.2 * t) none x) : ℚ)))))) = (pd.length : ℚ) := by
    exact_mod_cast hcount
  field_simp
  linarith [hsum]

/-- C5 (amended): for every loaded table whose power column has at least
one non-missing value and all of whose non-missing values are
non-negative, the power-zone analysis reports six zones; each zone's time
percentage is the share, among all non-missing power samples of the whole
ride, of the samples falling in that zone's half-open range anchored to
the 90th-percentile threshold estimate; and the six percentages sum to
exactly 100. (Without the non-negativity proviso a negative sample can
escape every zone and the sum falls short — see `C5_counterexample`.) -/
theorem C5_power_zones (df : DataFrame) (pc : Col)
    (h : df.getCol "power" = some pc)
    (hne : pc.filterMap id ≠ [])
    (hnn : ∀ x ∈ pc.filterMap id, 0 ≤ x) :
    analyze_power_zones df
      = .ok (zoneStatsAt (quantileLin (pc.filterMap id) 0.9) (pc.filterMap id))
    ∧ (zoneStatsAt (quantileLin (pc.filterMap id) 0.9) (pc.filterMap id)).length = 6
    ∧ (∀ s ∈ zoneStatsAt (quantileLin (pc.filterMap id) 0.9) (pc.filterMap id),
        ∃ z ∈ zonesList (quantileLin (pc.filterMap id) 0.9),
          s.2.1 = (((pc.filterMap id).countP (fun x => inRange z.2.1 z.2.2 x) : ℚ)
            / ((pc.filterMap id).length : ℚ)) * 100)
    ∧ (analyze_power_zones df).pctSum = 100 := by
  have hlen0 : (pc.filterMap id).length ≠ 0 :=
    fun h0 => hne (List.length_eq_zero.mp h0)
  have h1 : analyze_power_zones df
      = .ok (zoneStatsAt (quantileLin (pc.filterMap id) 0.9) (pc.filterMap id)) := by
    unfold analyze_power_zones
    rw [h]
    simp only [hlen0, if_false]
  refine ⟨h1, by simp [zoneStatsAt, zonesList], ?_, ?_⟩
  · intro s hs
    unfold zoneStatsAt at hs
    obtain ⟨z, hz, rfl⟩ := List.mem_map.mp hs
    exact ⟨z, hz, by rw [List.countP_eq_length_filter]⟩
  · rw [h1]
    exact zoneStats_pct_sum _ _ hne hnn

theorem C5_witness :
    (dfC5w.getCol "power" = some [some 100, some 200, none]
      ∧ ([some (100 : ℚ), some 200, none].filterMap id ≠ []
      ∧ ∀ x ∈ [some (100 : ℚ), some 200, none].filterMap id, 0 ≤ x))
    ∧ (analyze_power_zones dfC5w).pctSum = 100 := by
  have hg : dfC5w.getCol "power" = some [some 100, some 200, none] := by
    simp [dfC5w, DataFrame.getCol, lookupCol]
  have hne : [some (100 : ℚ), some 200, none].filterMap id ≠ [] := by simp
  have hnn : ∀ x ∈ [some (100 : ℚ), some 200, none].filterMap id, 0 ≤ x := by
    intro x hx
    simp at hx
    rcases hx with rfl | rfl <;> norm_num
  exact ⟨⟨hg, hne, hnn⟩, (C5_power_zones dfC5w _ hg hne hnn).2.2.2⟩

/-- C10: for every loaded table whose power column has a non-missing value
and all of whose non-missing values are non-negative, the six half-open
zones anchored to the 90th-percentile threshold are pairwise disjoint and
jointly cover every non-missing sample — each sample lies in exactly one
zone — and the six reported percentages sum to exactly 100. -/
theorem C10_zone_partition (df : DataFrame) (pc : Col)
    (h : df.getCol "power" = some pc)
    (hne : pc.filterMap id ≠ [])
    (hnn : ∀ x ∈ pc.filterMap id, 0 ≤ x) :
    (∀ x ∈ pc.filterMap id,
      ((zonesList (quantileLin (pc.filterMap id) 0.9)).countP
        (fun z => inRange z.2.1 z.2.2 x)) = 1)
    ∧ (analyze_power_zones df).pctSum = 100 := by
  constructor
  · intro x hx
    have hx0 : 0 ≤ x := hnn x hx
    have key := zoneMem_exactlyOne (quantileLin (pc.filterMap id) 0.9) x hx0
    simp only [zonesList, List.countP_cons, List.countP_nil]
    omega
  · have hlen0 : (pc.filterMap id).length ≠ 0 :=
      fun h0 => hne (List.length_eq_zero.mp h0)
    have h1 : analyze_power_zones df
        = .ok (zoneStatsAt (quantileLin (pc.filterMap id) 0.9) (pc.filterMap id)) := by
      unfold analyze_power_zones
      rw [h]
      simp only [hlen0, if_false]
    rw [h1]
    exact zoneStats_pct_sum _ _ hne hnn

theorem C10_witness :
    (dfC10w.getCol "power" = some [some 0, some 50]
      ∧ ([some (0 : ℚ), some 50].filterMap id ≠ []
      ∧ ∀ x ∈ [some (0 : ℚ), some 50].filterMap id, 0 ≤ x))
    ∧ ((∀ x ∈ [some (0 : ℚ), some 50].filterMap id,
        ((zonesList (quantileLin ([some (0 : ℚ), some 50].filterMap id) 0.9)).countP
          (fun z => inRange z.2.1 z.2.2 x)) = 1)
      ∧ (analyze_power_zones dfC10w).pctSum = 100) := by
  have hg : dfC10w.getCol "power" = some [some 0, some 50] := by
    simp [dfC10w, DataFrame.getCol, lookupCol]
  have hne : [some (0 : ℚ), some 50].filterMap id ≠ [] := by simp
  have hnn : ∀ x ∈ [some (0 : ℚ), some 50].filterMap id, 0 ≤ x := by
    intro x hx
    simp at hx
    rcases hx with rfl | rfl <;> norm_num
  exact ⟨⟨hg, hne, hnn⟩, C10_zone_partition dfC10w _ hg hne hnn⟩

theorem quantileLin_C5 : quantileLin [(-10 : ℚ), 100] 0.9 = 89 := by
  have hsort : List.insertionSort (· ≤ ·) [(-10 : ℚ), 100] = [-10, 100] := by
    simp [List.insertionSort, List.orderedInsert]
    norm_num
  unfold quantileLin
  rw [hsort]
  norm_num

theorem zoneStatsAt_C5 :
    zoneStatsAt 89 [(-10 : ℚ), 100] =
      [("Zone 1 (Recovery)", 0, 0), ("Zone 2 (Endurance)", 0, 0),
       ("Zone 3 (Tempo)", 0, 0), ("Zone 4 (Threshold)", 0, 0),
       ("Zone 5 (VO2 Max)", 50, 100), ("Zone 6 (Neuromuscular)", 0, 0)] := by
  simp [zoneStatsAt, zonesList, inRange]
  norm_num

/-- C5 counterexample: a power column containing a negative sample (−10 W)
satisfies the claim's premise (at least one non-missing value) yet the six
reported time percentages sum to 50, not 100: with threshold estimate 89,
the −10 W sample falls below Zone 1's lower bound 0 and is counted in no
zone. -/
theorem C5_counterexample :
    dfC5.getCol "power" = some [some (-10), some 100]
    ∧ analyze_power_zones dfC5 =
      .ok [("Zone 1 (Recovery)", 0, 0), ("Zone 2 (Endurance)", 0, 0),
           ("Zone 3 (Tempo)", 0, 0), ("Zone 4 (Threshold)", 0, 0),
           ("Zone 5 (VO2 Max)", 50, 100), ("Zone 6 (Neuromuscular)", 0, 0)]
    ∧ (analyze_power_zones dfC5).pctSum = 50 := by
  have hg : dfC5.getCol "power" = some [some (-10), some 100] := by
    simp [dfC5, DataFrame.getCol, lookupCol]
  have hfm : ([some (-10 : ℚ), some 100].filterMap id) = [-10, 100] := by simp
  have ha : analyze_power_zones dfC5 =
      .ok [("Zone 1 (Recovery)", 0, 0), ("Zone 2 (Endurance)", 0, 0),
           ("Zone 3 (Tempo)", 0, 0), ("Zone 4 (Threshold)", 0, 0),
           ("Zone 5 (VO2 Max)", 50, 100), ("Zone 6 (Neuromuscular)", 0, 0)] := by
    unfold analyze_power_zones
    rw [hg]
    simp only [hfm]
    rw [if_neg (by simp)]
    rw [quantileLin_C5, zoneStatsAt_C5]
  refine ⟨hg, ha, ?_⟩
  rw [ha]
  unfold ZonesOutcome.pctSum
  norm_num
